import Mathlib

/-!
Verification of the chromatic dispersion engine of MacOpticsApp
(web-app dispersion module: Sellmeier registry, refractive-index
evaluator, finite-difference derivative estimators, GDD/TOD unit
calculator, stack aggregator, pulse-broadening predictor).

Numbers are modelled as real numbers. The Sellmeier coefficient tables
store the source's decimal literals as exact rationals so that registry
lookups stay decidable; they are cast to ℝ at the point of evaluation.
-/

/-- Sellmeier coefficient set: three B terms (dimensionless) and three
C terms (µm²), mirroring `SellmeierCoeffs = { B: [n,n,n]; C: [n,n,n] }`. -/
structure SellmeierCoeffs where
  B1 : ℚ
  B2 : ℚ
  B3 : ℚ
  C1 : ℚ
  C2 : ℚ
  C3 : ℚ
  deriving DecidableEq

/-- The `SELLMEIER` registry: canonical material name to coefficient set. -/
def SELLMEIER : List (String × SellmeierCoeffs) :=
  [ ( "N-BK7", ⟨1.03961212, 0.231792344, 1.01046945, 0.00600069867, 0.0200179144, 103.560653⟩ ),
    ( "BK7", ⟨1.03961212, 0.231792344, 1.01046945, 0.00600069867, 0.0200179144, 103.560653⟩ ),
    ( "N-SF11", ⟨1.73848403, 0.31116824, 1.17490871, 0.0133711172, 0.0619001176, 121.419942⟩ ),
    ( "SF11", ⟨1.73848403, 0.31116824, 1.17490871, 0.0133711172, 0.0619001176, 121.419942⟩ ),
    ( "Fused Silica", ⟨0.6961663, 0.4079426, 0.8974794, 0.004679148, 0.01351206, 97.93432⟩ ),
    ( "Silica", ⟨0.6961663, 0.4079426, 0.8974794, 0.004679148, 0.01351206, 97.93432⟩ ),
    ( "F2", ⟨1.31038764, 0.196681836, 0.966129764, 0.00958633072, 0.0457627625, 99.2753302⟩ ),
    ( "N-SF5", ⟨1.31038764, 0.196681836, 0.966129764, 0.00958633072, 0.0457627625, 99.2753302⟩ ),
    ( "N-SF10", ⟨1.61625974, 0.259229334, 0.96887106, 0.0106200162, 0.0473625942, 119.248795⟩ ),
    ( "N-BAF10", ⟨1.5851495, 0.143571385, 1.08521269, 0.00909730952, 0.0424520636, 105.613573⟩ ),
    ( "N-LAK9", ⟨1.41673927, 0.126605356, 1.28217827, 0.00906333117, 0.0493226978, 95.6403971⟩ ) ]

/-- The `MATERIAL_TO_SELLMEIER` alias map: lowercase material names to
canonical Sellmeier registry keys. -/
def MATERIAL_TO_SELLMEIER : List (String × String) :=
  [ ( "n-bk7", "N-BK7" ), ( "bk7", "N-BK7" ), ( "nbk7", "N-BK7" ),
    ( "n-sf11", "N-SF11" ), ( "sf11", "N-SF11" ),
    ( "fused silica", "Fused Silica" ), ( "fused-silica", "Fused Silica" ), ( "silica", "Fused Silica" ),
    ( "f2", "F2" ), ( "n-sf5", "N-SF5" ), ( "n-sf10", "N-SF10" ),
    ( "n-baf10", "N-BAF10" ), ( "baf10", "N-BAF10" ),
    ( "n-lak9", "N-LAK9" ), ( "lak9", "N-LAK9" ) ]

/-- JavaScript `String.prototype.toLowerCase` on the ASCII names used here:
lowercase every character. -/
def jsToLowerCase (s : String) : String := ⟨s.data.map Char.toLower⟩

/-- JavaScript `String.prototype.trim`: strip whitespace from both ends. -/
def jsTrim (s : String) : String :=
  ⟨((s.data.dropWhile Char.isWhitespace).reverse.dropWhile Char.isWhitespace).reverse⟩

/-- Registry lookup `getSellmeier`: lowercase and trim the material name,
resolve through the alias map, then through the coefficient registry. -/
def getSellmeier (material : String) : Option SellmeierCoeffs :=
  match MATERIAL_TO_SELLMEIER.lookup (jsTrim (jsToLowerCase material)) with
  | some key => SELLMEIER.lookup key
  | none => none

noncomputable section

/-- Refractive index from Sellmeier, `nFromSellmeier`: wavelength in nm is
converted to µm, n² is the three-term Sellmeier sum, clamped below at 1
before the square root. -/
def nFromSellmeier (lambdaNm : ℝ) (coeffs : SellmeierCoeffs) : ℝ :=
  let lam := lambdaNm * 1e-3
  let lam2 := lam * lam
  let n2 := 1 + (coeffs.B1 : ℝ) * lam2 / (lam2 - (coeffs.C1 : ℝ))
              + (coeffs.B2 : ℝ) * lam2 / (lam2 - (coeffs.C2 : ℝ))
              + (coeffs.B3 : ℝ) * lam2 / (lam2 - (coeffs.C3 : ℝ))
  Real.sqrt (max n2 1)

/-- Fallback evaluator `refractiveIndexAtWavelength`: Sellmeier model when
the material resolves, the caller-provided constant index otherwise. -/
def refractiveIndexAtWavelength (lambdaNm : ℝ) (material : String) (nDefault : ℝ) : ℝ :=
  match getSellmeier material with
  | some coeffs => nFromSellmeier lambdaNm coeffs
  | none => nDefault

/-- The finite-difference step `DEL` (nm). -/
def DEL : ℝ := 0.5

/-- Second derivative d²n/dλ² (1/nm²): symmetric three-point stencil on n. -/
def d2n_dlambda2 (lambdaNm : ℝ) (coeffs : SellmeierCoeffs) : ℝ :=
  let n0 := nFromSellmeier lambdaNm coeffs
  let nP := nFromSellmeier (lambdaNm + DEL) coeffs
  let nM := nFromSellmeier (lambdaNm - DEL) coeffs
  (nP - 2 * n0 + nM) / (DEL * DEL)

/-- Third derivative d³n/dλ³ (1/nm³): symmetric two-point stencil applied
to the second-derivative estimator. -/
def d3n_dlambda3 (lambdaNm : ℝ) (coeffs : SellmeierCoeffs) : ℝ :=
  let n2 := d2n_dlambda2 (lambdaNm + DEL) coeffs
  let n1 := d2n_dlambda2 (lambdaNm - DEL) coeffs
  (n2 - n1) / (2 * DEL)

/-- Vacuum speed of light `C_LIGHT_MS` (m/s). -/
def C_LIGHT_MS : ℝ := 2.99792458e8

/-- GDD in fs² for path length L (mm), `gddFs2`: converts to SI, applies
GDD = L·λ³·(d²n/dλ²)/(2π²c²), rescales s² to fs². -/
def gddFs2 (lambdaNm : ℝ) (d2n_perNm2 : ℝ) (L_mm : ℝ) : ℝ :=
  let lam_m := lambdaNm * 1e-9
  let d2n_perM2 := d2n_perNm2 * 1e18
  let c := C_LIGHT_MS
  let L := L_mm * 1e-3
  let gdd_s2 := L * lam_m ^ 3 * d2n_perM2 / (2 * Real.pi * Real.pi * c * c)
  gdd_s2 * 1e30

/-- TOD in fs³ for path length L (mm), `todFs3`: converts to SI, applies
TOD = L·λ⁴·(λ·d³n/dλ³ − 2·d²n/dλ²)/(4π³c³), rescales s³ to fs³. -/
def todFs3 (lambdaNm : ℝ) (d2n_perNm2 : ℝ) (d3n_perNm3 : ℝ) (L_mm : ℝ) : ℝ :=
  let lam_m := lambdaNm * 1e-9
  let d2n_perM2 := d2n_perNm2 * 1e18
  let d3n_perM3 := d3n_perNm3 * 1e27
  let c := C_LIGHT_MS
  let L := L_mm * 1e-3
  let term := lam_m * d3n_perM3 - 2 * d2n_perM2
  let tod_s3 := L * lam_m ^ 4 * term / (4 * Real.pi ^ 3 * c ^ 3)
  tod_s3 * 1e45

/-- Gaussian pulse-broadening predictor `predictedExitPulseWidthFs`:
τ_out = sqrt(max(0, τ_in² + (4 ln 2)²·GDD²/τ_in² + (4 ln 2)³·TOD²/τ_in⁴)). -/
def predictedExitPulseWidthFs (tauInFs : ℝ) (gddTotalFs2 : ℝ) (todTotalFs3 : ℝ) : ℝ :=
  let a := 4 * Real.log 2
  let tau2 := tauInFs * tauInFs
  let gddTerm := a * a * gddTotalFs2 * gddTotalFs2 / tau2
  let todTerm := a * a * a * todTotalFs3 * todTotalFs3 / (tau2 * tau2)
  Real.sqrt (max 0 (tau2 + gddTerm + todTerm))

/-- An optical element as consumed by the dispersion engine,
`SurfaceForDispersion`. -/
structure SurfaceForDispersion where
  thickness : ℝ
  material : String
  type : String
  refractiveIndex : ℝ

/-- Result record `DispersionResult`. -/
structure DispersionResult where
  gddFs2 : ℝ
  todFs3 : ℝ
  predictedExitPulseWidthFs : ℝ

/-- One loop iteration of `computeDispersion`: skip air-like elements
(type tag the non-dispersive gap tag `"Air"`, or nominal index ≤ 1.01) and
elements whose material does not resolve; otherwise add the element's GDD
and TOD contributions to the running totals. -/
def dispersionStep (lambdaNm : ℝ) (acc : ℝ × ℝ) (s : SurfaceForDispersion) : ℝ × ℝ :=
  if s.type = "Air" ∨ s.refractiveIndex ≤ 1.01 then acc
  else
    match getSellmeier s.material with
    | none => acc
    | some coeffs =>
      let L := s.thickness
      let d2n := d2n_dlambda2 lambdaNm coeffs
      let d3n := d3n_dlambda3 lambdaNm coeffs
      (acc.1 + gddFs2 lambdaNm d2n L, acc.2 + todFs3 lambdaNm d2n d3n L)

/-- Stack aggregator `computeDispersion`: fold the per-element step over
the surface list starting from zero totals, then apply the
pulse-broadening predictor to the input pulse duration. -/
def computeDispersion (surfaces : List SurfaceForDispersion) (lambdaNm : ℝ)
    (pulseWidthFs : ℝ) : DispersionResult :=
  let totals := surfaces.foldl (dispersionStep lambdaNm) (0, 0)
  { gddFs2 := totals.1
    todFs3 := totals.2
    predictedExitPulseWidthFs := predictedExitPulseWidthFs pulseWidthFs totals.1 totals.2 }

end

/-- C2: `nFromSellmeier` converts the wavelength from nm to µm by the factor
10⁻³, computes n² = 1 + Σᵢ Bᵢλ²/(λ² − Cᵢ) over the three coefficient pairs,
clamps n² below at 1, and returns the square root; in particular the
returned refractive index is always ≥ 1. -/
theorem nFromSellmeier_clamped_sqrt_and_ge_one (lambdaNm : ℝ) (coeffs : SellmeierCoeffs) :
    nFromSellmeier lambdaNm coeffs =
      Real.sqrt (max
        (1 + (coeffs.B1 : ℝ) * (lambdaNm * 1e-3) ^ 2 / ((lambdaNm * 1e-3) ^ 2 - (coeffs.C1 : ℝ))
           + (coeffs.B2 : ℝ) * (lambdaNm * 1e-3) ^ 2 / ((lambdaNm * 1e-3) ^ 2 - (coeffs.C2 : ℝ))
           + (coeffs.B3 : ℝ) * (lambdaNm * 1e-3) ^ 2 / ((lambdaNm * 1e-3) ^ 2 - (coeffs.C3 : ℝ)))
        1) ∧
    1 ≤ nFromSellmeier lambdaNm coeffs := by
  constructor
  · simp only [nFromSellmeier, pow_two]
  · calc (1 : ℝ) = Real.sqrt 1 := Real.sqrt_one.symm
      _ ≤ nFromSellmeier lambdaNm coeffs := Real.sqrt_le_sqrt (le_max_right _ _)

/-- C3: the second-derivative estimator is the symmetric three-point stencil
on n with fixed step h = 0.5 nm, and the third-derivative estimator is the
symmetric two-point stencil applied to the second-derivative estimator at
λ ± h (a derivative-of-a-derivative composition). -/
theorem derivative_estimators_are_layered_stencils (lambdaNm : ℝ) (coeffs : SellmeierCoeffs) :
    d2n_dlambda2 lambdaNm coeffs =
      (nFromSellmeier (lambdaNm + 0.5) coeffs - 2 * nFromSellmeier lambdaNm coeffs
        + nFromSellmeier (lambdaNm - 0.5) coeffs) / (0.5 : ℝ) ^ 2 ∧
    d3n_dlambda3 lambdaNm coeffs =
      (d2n_dlambda2 (lambdaNm + 0.5) coeffs - d2n_dlambda2 (lambdaNm - 0.5) coeffs)
        / (2 * (0.5 : ℝ)) := by
  constructor
  · simp only [d2n_dlambda2, DEL, pow_two]
  · simp only [d3n_dlambda3, DEL]

/-- C4: GDD is exactly linear in path length: doubling the path length
doubles the GDD, for every wavelength and second-derivative value. -/
theorem gddFs2_linear_in_path_length (lambdaNm d2n L : ℝ) :
    gddFs2 lambdaNm d2n (2 * L) = 2 * gddFs2 lambdaNm d2n L := by
  simp only [gddFs2]
  ring

/-- C5: with zero total GDD and zero total TOD, the pulse-broadening
predictor reproduces any positive input pulse duration exactly. -/
theorem predictedExitPulseWidthFs_zero_dispersion (tauInFs : ℝ) (h : 0 < tauInFs) :
    predictedExitPulseWidthFs tauInFs 0 0 = tauInFs := by
  simp only [predictedExitPulseWidthFs, mul_zero, zero_mul, zero_div, add_zero]
  rw [max_eq_right (mul_self_nonneg tauInFs)]
  exact Real.sqrt_mul_self h.le

/-- C5 witness: the predictor at τ_in = 100 fs with zero GDD and TOD. -/
theorem predictedExitPulseWidthFs_zero_dispersion_witness :
    0 < (100 : ℝ) ∧ predictedExitPulseWidthFs 100 0 0 = 100 :=
  ⟨by norm_num, predictedExitPulseWidthFs_zero_dispersion 100 (by norm_num)⟩

/-- C6: for every input pulse duration ≥ 0 (including the pathological
τ_in = 0) and arbitrary totals, the predictor returns a non-negative real:
the max-with-zero floor guards the square root. -/
theorem predictedExitPulseWidthFs_nonneg (tauInFs gddTotalFs2 todTotalFs3 : ℝ)
    (_h : 0 ≤ tauInFs) :
    0 ≤ predictedExitPulseWidthFs tauInFs gddTotalFs2 todTotalFs3 :=
  Real.sqrt_nonneg _

/-- C6 witness: the predictor at the pathological input τ_in = 0. -/
theorem predictedExitPulseWidthFs_nonneg_witness :
    0 ≤ (0 : ℝ) ∧ 0 ≤ predictedExitPulseWidthFs 0 3 (-4) :=
  ⟨le_refl 0, predictedExitPulseWidthFs_nonneg 0 3 (-4) (le_refl 0)⟩

/-- C1: an element whose type is the non-dispersive gap tag `"Air"` or whose
nominal refractive index is ≤ 1.01 contributes exactly zero to the GDD and
TOD totals: `computeDispersion` on a stack containing such an element equals
`computeDispersion` on the stack with that element removed, for every probe
wavelength and input pulse duration and regardless of the element's material
and thickness fields. -/
theorem computeDispersion_skips_airlike (l1 l2 : List SurfaceForDispersion)
    (s : SurfaceForDispersion) (lambdaNm pulseWidthFs : ℝ)
    (h : s.type = "Air" ∨ s.refractiveIndex ≤ 1.01) :
    computeDispersion (l1 ++ s :: l2) lambdaNm pulseWidthFs =
      computeDispersion (l1 ++ l2) lambdaNm pulseWidthFs := by
  have hstep : ∀ acc : ℝ × ℝ, dispersionStep lambdaNm acc s = acc := by
    intro acc
    unfold dispersionStep
    rw [if_pos h]
  simp only [computeDispersion, List.foldl_append, List.foldl_cons, hstep]

/-- C1 witness: a glass-material element tagged `"Air"` is dropped from a
singleton stack. -/
theorem computeDispersion_skips_airlike_witness :
    computeDispersion [⟨2, "bk7", "Air", 1.5168⟩] 800 100 =
      computeDispersion [] 800 100 :=
  computeDispersion_skips_airlike [] [] ⟨2, "bk7", "Air", 1.5168⟩ 800 100 (Or.inl rfl)

/-- C7: an element whose material string does not resolve in the registry is
skipped silently: `computeDispersion` on a stack containing it equals
`computeDispersion` on the stack with that element omitted, for every probe
wavelength and input pulse duration, whatever its type tag and nominal
index (in particular for a `"dispersive"` element such as `"unobtainium"`). -/
theorem computeDispersion_skips_unknown_material (l1 l2 : List SurfaceForDispersion)
    (s : SurfaceForDispersion) (lambdaNm pulseWidthFs : ℝ)
    (h : getSellmeier s.material = none) :
    computeDispersion (l1 ++ s :: l2) lambdaNm pulseWidthFs =
      computeDispersion (l1 ++ l2) lambdaNm pulseWidthFs := by
  have hstep : ∀ acc : ℝ × ℝ, dispersionStep lambdaNm acc s = acc := by
    intro acc
    unfold dispersionStep
    by_cases hc : s.type = "Air" ∨ s.refractiveIndex ≤ 1.01
    · rw [if_pos hc]
    · rw [if_neg hc, h]
  simp only [computeDispersion, List.foldl_append, List.foldl_cons, hstep]

/-- C7 witness: a `"dispersive"` element with material `"unobtainium"` is
dropped from a singleton stack. -/
theorem computeDispersion_skips_unknown_material_witness :
    computeDispersion [⟨2, "unobtainium", "dispersive", 1.5⟩] 800 100 =
      computeDispersion [] 800 100 :=
  computeDispersion_skips_unknown_material [] [] ⟨2, "unobtainium", "dispersive", 1.5⟩
    800 100 (by decide)

/-- C9: when the material string does not resolve in the registry,
`refractiveIndexAtWavelength` returns exactly the caller-supplied fallback
constant index, never a value computed from a default coefficient set. -/
theorem refractiveIndexAtWavelength_fallback (lambdaNm : ℝ) (material : String)
    (nDefault : ℝ) (h : getSellmeier material = none) :
    refractiveIndexAtWavelength lambdaNm material nDefault = nDefault := by
  unfold refractiveIndexAtWavelength
  rw [h]

/-- C9 witness: the fallback index is returned verbatim for
`"unobtainium"`. -/
theorem refractiveIndexAtWavelength_fallback_witness :
    refractiveIndexAtWavelength 800 "unobtainium" 1.5 = 1.5 :=
  refractiveIndexAtWavelength_fallback 800 "unobtainium" 1.5 (by decide)

/-- C10: the input pulse duration influences only the
`predictedExitPulseWidthFs` field of the result: for any two pulse
durations, `computeDispersion` returns identical `gddFs2` and `todFs3`
fields. -/
theorem computeDispersion_totals_independent_of_pulse
    (surfaces : List SurfaceForDispersion) (lambdaNm tau1 tau2 : ℝ) :
    (computeDispersion surfaces lambdaNm tau1).gddFs2 =
        (computeDispersion surfaces lambdaNm tau2).gddFs2 ∧
      (computeDispersion surfaces lambdaNm tau1).todFs3 =
        (computeDispersion surfaces lambdaNm tau2).todFs3 :=
  ⟨rfl, rfl⟩

/-- C8 counterexample: the registry glass N-SF5 refutes the claim that the
"N-" catalog prefix may be present or absent: `"N-SF5"` resolves to a
coefficient set while `"sf5"` (the claim's own example) resolves to none,
so the two names do not resolve identically. -/
theorem getSellmeier_prefix_tolerance_fails :
    getSellmeier "N-SF5" ≠ none ∧ getSellmeier "sf5" = none ∧
      getSellmeier "N-SF5" ≠ getSellmeier "sf5" := by
  refine ⟨by decide, by decide, by decide⟩

/-- C8 amended: name matching is case-insensitive — any two material names
equal after lowercasing resolve to the same result — but prefix and hyphen
tolerance holds only for the aliases listed in the map: BK7, NBK7, SF11,
BAF10 and LAK9 resolve identically with and without the "N-" prefix, while
"sf5", "sf10" and the unhyphenated "nsf11" do not resolve at all even
though "n-sf5", "n-sf10" and "n-sf11" do. -/
theorem getSellmeier_case_insensitive_listed_aliases :
    (∀ s t : String, jsToLowerCase s = jsToLowerCase t →
      getSellmeier s = getSellmeier t) ∧
    getSellmeier "N-BK7" = getSellmeier "bk7" ∧
    getSellmeier "N-BK7" = getSellmeier "nbk7" ∧
    getSellmeier "N-BK7" ≠ none ∧
    getSellmeier "N-SF11" = getSellmeier "sf11" ∧
    getSellmeier "N-BAF10" = getSellmeier "baf10" ∧
    getSellmeier "N-LAK9" = getSellmeier "lak9" ∧
    getSellmeier "n-sf5" ≠ none ∧ getSellmeier "sf5" = none ∧
    getSellmeier "n-sf10" ≠ none ∧ getSellmeier "sf10" = none ∧
    getSellmeier "n-sf11" ≠ none ∧ getSellmeier "nsf11" = none := by
  refine ⟨fun s t h => ?_, rfl, rfl, by decide, rfl, rfl,
    rfl, by decide, by decide, by decide, by decide, by decide, by decide⟩
  unfold getSellmeier
  rw [h]

/-- C8 amended witness: case-insensitivity applied at the concrete pair
`"N-Bk7"` / `"n-bK7"`. -/
theorem getSellmeier_case_insensitive_witness :
    getSellmeier "N-Bk7" = getSellmeier "n-bK7" :=
  getSellmeier_case_insensitive_listed_aliases.1 "N-Bk7" "n-bK7" (by decide)
